import Mathlib

/-!
Verification development for a small Express/Node payment-relay server
(`server.js`): an HTTP relay that obtains an OAuth token from an upstream
gateway, initiates STK push payments, registers C2B callback URLs, and
acknowledges webhook callbacks.

The JavaScript code is shallowly embedded: JSON/JavaScript values become the
inductive `JVal` (with an explicit `undefined` for JavaScript `undefined`);
outbound HTTP effects (axios) become explicit oracle parameters of type
`UpstreamResult`, and each Express handler becomes a pure function returning
the list of outbound calls it performed together with the HTTP response it
sends.  `Buffer.from(s).toString('base64')` is embedded as a base64 encoder
over the UTF-8 bytes of the string, and `new Date().toISOString()` as a
renderer of an explicit UTC time decomposition (faithful for years 0..9999,
the range in which JavaScript `toISOString` uses the plain 4-digit format).
-/

namespace Server

/-- JavaScript/JSON values as far as the server manipulates them.
`undefined` is JavaScript `undefined` (a missing object property reads as
`undefined`; `res.json` omits such properties). -/
inductive JVal where
  | undefined : JVal
  | str : String → JVal
  | num : Int → JVal
  | bool : Bool → JVal
  | obj : List (String × JVal) → JVal

/-- JavaScript truthiness for the values in `JVal` (used by `||`). -/
def truthy : JVal → Bool
  | .undefined => false
  | .str s => s ≠ ""
  | .num n => n ≠ 0
  | .bool b => b
  | .obj _ => true

/-- JavaScript `a || b`. -/
def jsOr (a b : JVal) : JVal := if truthy a then a else b

/-- Is a value JavaScript `undefined`? -/
def isUndefined : JVal → Bool
  | .undefined => true
  | _ => false

/-- Destructuring default `({ x = d } = o)`: the default applies exactly
when the property is `undefined`. -/
def jsDefault (v d : JVal) : JVal := if isUndefined v then d else v

/-- Property access `o.k` on the embedded values: the named field of an
object, `undefined` when absent or when the value is not an object. -/
def jGet (v : JVal) (k : String) : JVal :=
  match v with
  | .obj fields => (fields.lookup k).getD .undefined
  | _ => .undefined

/-- Template-literal interpolation of a value, as in `` `Bearer ${token}` ``:
`undefined` prints as the string "undefined". -/
def jTemplate : JVal → String
  | .undefined => "undefined"
  | .str s => s
  | .num n => toString n
  | .bool b => if b then "true" else "false"
  | .obj _ => "[object Object]"

/-- JavaScript `s || d` for an optional environment string: the fallback is
used when the variable is unset (`undefined`) or the empty string (falsy). -/
def jsOrStr (o : Option String) (d : String) : String :=
  match o with
  | some s => if s = "" then d else s
  | none => d

/-- The process environment read at startup (`process.env`).  The four
required credentials are modelled as present (the server only warns when
they are missing); `BASE_URL` and `CALLBACK_URL` are optional and fall back
through `||` in the code. -/
structure Config where
  CONSUMER_KEY : String
  CONSUMER_SECRET : String
  SHORTCODE : String
  PASSKEY : String
  BASE_URL : Option String
  CALLBACK_URL : Option String

/-! ### Base64 (`Buffer.from(s).toString('base64')`) -/

/-- The RFC 4648 base64 alphabet used by Node's `Buffer`. -/
def b64Chars : List Char :=
  ['A','B','C','D','E','F','G','H','I','J','K','L','M','N','O','P','Q','R',
   'S','T','U','V','W','X','Y','Z','a','b','c','d','e','f','g','h','i','j',
   'k','l','m','n','o','p','q','r','s','t','u','v','w','x','y','z','0','1',
   '2','3','4','5','6','7','8','9','+','/']

/-- The alphabet character of a sextet. -/
def b64Char (n : Nat) : Char := b64Chars.getD n 'A'

/-- Position of a character in the base64 alphabet (`none` off-alphabet). -/
def b64Index (c : Char) : Option Nat :=
  (List.range 64).find? (fun n => b64Chars.getD n 'A' = c)

/-- Encode a final group of 1, 2 or 3 bytes into 4 base64 characters,
padding with '='. -/
def encodeChunk : List Nat → List Char
  | [a] => [b64Char (a / 4), b64Char (a % 4 * 16), '=', '=']
  | [a, b] => [b64Char (a / 4), b64Char (a % 4 * 16 + b / 16),
               b64Char (b % 16 * 4), '=']
  | [a, b, c] => [b64Char (a / 4), b64Char (a % 4 * 16 + b / 16),
                  b64Char (b % 16 * 4 + c / 64), b64Char (c % 64)]
  | _ => []

/-- Standard base64 encoding of a byte sequence. -/
def base64Encode : List Nat → List Char
  | [] => []
  | [a] => encodeChunk [a]
  | [a, b] => encodeChunk [a, b]
  | a :: b :: c :: rest => encodeChunk [a, b, c] ++ base64Encode rest

/-- Decode one 4-character base64 group into its 1, 2 or 3 bytes. -/
def decodeChunk (w x y z : Char) : Option (List Nat) :=
  if y = '=' then
    match b64Index w, b64Index x with
    | some a, some b =>
        if z = '=' ∧ b % 16 = 0 then some [a * 4 + b / 16] else none
    | _, _ => none
  else if z = '=' then
    match b64Index w, b64Index x, b64Index y with
    | some a, some b, some c =>
        if c % 4 = 0 then some [a * 4 + b / 16, b % 16 * 16 + c / 4] else none
    | _, _, _ => none
  else
    match b64Index w, b64Index x, b64Index y, b64Index z with
    | some a, some b, some c, some d =>
        some [a * 4 + b / 16, b % 16 * 16 + c / 4, c % 4 * 64 + d]
    | _, _, _, _ => none

/-- Base64 decoding: groups of four characters, '=' padding only in a final
group. -/
def base64Decode : List Char → Option (List Nat)
  | [] => some []
  | w :: x :: y :: z :: rest =>
      if y = '=' ∨ z = '=' then
        if rest = [] then decodeChunk w x y z else none
      else do
        let head ← decodeChunk w x y z
        let tail ← base64Decode rest
        some (head ++ tail)
  | _ => none

/-- The UTF-8 bytes of a string, as natural numbers — what
`Buffer.from(s)` holds. -/
def strBytes (s : String) : List Nat := s.toUTF8.toList.map (fun b => b.toNat)

/-- `Buffer.from(s).toString('base64')`. -/
def base64String (s : String) : String := String.mk (base64Encode (strBytes s))

/-! ### Timestamp (`new Date().toISOString().replace(/[-:TZ.]/g,'').slice(0,14)`) -/

/-- Decimal digit character of `n % 10`. -/
def digitChar (n : Nat) : Char :=
  ['0','1','2','3','4','5','6','7','8','9'].getD (n % 10) '0'

/-- Two-digit zero-padded decimal rendering (faithful for `n ≤ 99`). -/
def pad2 (n : Nat) : String := String.mk [digitChar (n / 10), digitChar n]

/-- Three-digit zero-padded decimal rendering (faithful for `n ≤ 999`). -/
def pad3 (n : Nat) : String :=
  String.mk [digitChar (n / 100), digitChar (n / 10), digitChar n]

/-- Four-digit zero-padded decimal rendering (faithful for `n ≤ 9999`). -/
def pad4 (n : Nat) : String :=
  String.mk [digitChar (n / 1000), digitChar (n / 100), digitChar (n / 10),
             digitChar n]

/-- A UTC instant, decomposed as `Date` does for `toISOString`. -/
structure UTCTime where
  year : Nat
  month : Nat
  day : Nat
  hour : Nat
  minute : Nat
  second : Nat
  ms : Nat

/-- `Date.prototype.toISOString`: `YYYY-MM-DDTHH:mm:ss.sssZ` (the format
used for years 0..9999). -/
def toISOString (t : UTCTime) : String :=
  pad4 t.year ++ "-" ++ pad2 t.month ++ "-" ++ pad2 t.day ++ "T" ++
  pad2 t.hour ++ ":" ++ pad2 t.minute ++ ":" ++ pad2 t.second ++ "." ++
  pad3 t.ms ++ "Z"

/-- The character class `[-:TZ.]` removed by the `replace` call: `notSep c`
holds when `c` survives. -/
def notSep (c : Char) : Bool :=
  ¬(c = '-' ∨ c = ':' ∨ c = 'T' ∨ c = 'Z' ∨ c = '.')

/-- `new Date().toISOString().replace(/[-:TZ.]/g,'').slice(0,14)` at a given
instant. -/
def mkTimestamp (t : UTCTime) : String :=
  String.mk (((toISOString t).toList.filter notSep).take 14)

/-- Modelled from the spec: the `YYYYMMDDHHMMSS` decomposition of an instant
(the spec's "14-digit numeric string `YYYYMMDDHHMMSS`"), for comparison with
the code's `mkTimestamp`. -/
def ymdhmsString (t : UTCTime) : String :=
  pad4 t.year ++ pad2 t.month ++ pad2 t.day ++ pad2 t.hour ++ pad2 t.minute ++
  pad2 t.second

/-! ### Outbound calls and handlers -/

/-- The base URL with the sandbox fallback:
`BASE_URL || 'https://sandbox.safaricom.co.ke'`. -/
def baseURL (cfg : Config) : String :=
  jsOrStr cfg.BASE_URL "https://sandbox.safaricom.co.ke"

/-- URL of the OAuth token endpoint. -/
def oauthUrl (cfg : Config) : String :=
  baseURL cfg ++ "/oauth/v1/generate?grant_type=client_credentials"

/-- The Basic-Auth credential: base64 of `consumerKey:consumerSecret`. -/
def basicAuth (cfg : Config) : String :=
  base64String (cfg.CONSUMER_KEY ++ ":" ++ cfg.CONSUMER_SECRET)

/-- An axios failure (network error or non-2xx response): `data` embeds
`err.response?.data` (`undefined` when there was no response body) and `message`
embeds `err.message`. -/
structure HttpError where
  data : JVal
  message : String

/-- Result of an outbound axios call: `ok` with the 2xx response body, or a
thrown `HttpError`. -/
inductive UpstreamResult where
  | ok : JVal → UpstreamResult
  | err : HttpError → UpstreamResult

/-- `err.response?.data || err.message`, the body the catch blocks attach to
the 500 response. -/
def errVal (e : HttpError) : JVal := jsOr e.data (.str e.message)

/-- The payload POSTed to `/mpesa/stkpush/v1/processrequest`.  `Amount`,
`PartyA`, `PhoneNumber`, `AccountReference` and `TransactionDesc` pass the
client-supplied values through, so they stay `JVal`. -/
structure StkPayload where
  BusinessShortCode : String
  Password : String
  Timestamp : String
  TransactionType : String
  Amount : JVal
  PartyA : JVal
  PartyB : String
  PhoneNumber : JVal
  CallBackURL : String
  AccountReference : JVal
  TransactionDesc : JVal

/-- The payload POSTed to `/mpesa/c2b/v1/registerurl`. -/
structure C2BPayload where
  ShortCode : String
  ResponseType : String
  ConfirmationURL : JVal
  ValidationURL : JVal

/-- An outbound HTTP call performed by a handler, with the URL, the
Authorization header, and (for POSTs) the payload. -/
inductive Call where
  | oauth : String → String → Call
  | stk : String → String → StkPayload → Call
  | c2b : String → String → C2BPayload → Call

/-- The response a handler sends to the inbound client. -/
structure HttpResponse where
  status : Nat
  body : JVal

/-- `getOAuthToken()`: one GET to the token endpoint with a Basic header
built from base64(`CONSUMER_KEY:CONSUMER_SECRET`); on a 2xx response it
returns `res.data.access_token`, otherwise the axios error propagates.
`resp` is the oracle for the upstream's answer. -/
def getOAuthToken (cfg : Config) (resp : UpstreamResult) :
    List Call × Except HttpError JVal :=
  ([Call.oauth (oauthUrl cfg) ("Basic " ++ basicAuth cfg)],
   match resp with
   | .ok data => .ok (jGet data "access_token")
   | .err e => .error e)

/-- Request body of `POST /stkpush`:
`{ amount, phone, accountReference, description }`, each possibly absent
(`undefined`). -/
structure StkBody where
  amount : JVal
  phone : JVal
  accountReference : JVal
  description : JVal

/-- The `app.post('/stkpush')` handler: fetch a token, compute timestamp and
password, build the payload, POST it with a Bearer header; on any thrown
error answer 500 with `{ error: err.response?.data || err.message }`.
`tokenResp` and `gwResp` are the oracles for the two outbound calls. -/
def stkpushHandler (cfg : Config) (now : UTCTime) (body : StkBody)
    (tokenResp : UpstreamResult) (gwResp : UpstreamResult) :
    List Call × HttpResponse :=
  let tr := getOAuthToken cfg tokenResp
  match tr.2 with
  | .error e => (tr.1, ⟨500, .obj [("error", errVal e)]⟩)
  | .ok token =>
    let timestamp := mkTimestamp now
    let password := base64String (cfg.SHORTCODE ++ cfg.PASSKEY ++ timestamp)
    let payload : StkPayload :=
      { BusinessShortCode := cfg.SHORTCODE
        Password := password
        Timestamp := timestamp
        TransactionType := "CustomerPayBillOnline"
        Amount := body.amount
        PartyA := body.phone
        PartyB := cfg.SHORTCODE
        PhoneNumber := body.phone
        CallBackURL := jsOrStr cfg.CALLBACK_URL "https://yourdomain.com/callback"
        AccountReference := jsDefault body.accountReference (.str "BOOK")
        TransactionDesc := jsDefault body.description (.str "Hotel booking") }
    let url := baseURL cfg ++ "/mpesa/stkpush/v1/processrequest"
    let calls := tr.1 ++ [Call.stk url ("Bearer " ++ jTemplate token) payload]
    match gwResp with
    | .ok data => (calls, ⟨200, data⟩)
    | .err e => (calls, ⟨500, .obj [("error", errVal e)]⟩)

/-- Request body of `POST /c2b/register`:
`{ confirmationURL, validationURL }`, each possibly absent (`undefined`). -/
structure C2BBody where
  confirmationURL : JVal
  validationURL : JVal

/-- The `app.post('/c2b/register')` handler: fetch a token, POST
`{ ShortCode, ResponseType: "Completed", ConfirmationURL, ValidationURL }`
with a Bearer header; on any thrown error answer 500 with
`{ error: err.response?.data || err.message }`. -/
def c2bRegisterHandler (cfg : Config) (body : C2BBody)
    (tokenResp : UpstreamResult) (gwResp : UpstreamResult) :
    List Call × HttpResponse :=
  let tr := getOAuthToken cfg tokenResp
  match tr.2 with
  | .error e => (tr.1, ⟨500, .obj [("error", errVal e)]⟩)
  | .ok token =>
    let payload : C2BPayload :=
      { ShortCode := cfg.SHORTCODE
        ResponseType := "Completed"
        ConfirmationURL := body.confirmationURL
        ValidationURL := body.validationURL }
    let url := baseURL cfg ++ "/mpesa/c2b/v1/registerurl"
    let calls := tr.1 ++ [Call.c2b url ("Bearer " ++ jTemplate token) payload]
    match gwResp with
    | .ok data => (calls, ⟨200, data⟩)
    | .err e => (calls, ⟨500, .obj [("error", errVal e)]⟩)

/-- The `app.post('/callback')` handler: logs the payload (a pure
observation, not modelled) and unconditionally answers
`200 {ResultCode: 0, ResultDesc: 'Accepted'}`. -/
def callbackHandler (_body : JVal) : HttpResponse :=
  ⟨200, .obj [("ResultCode", .num 0), ("ResultDesc", .str "Accepted")]⟩

/-- The `app.get('/token')` handler: fetch a token and answer
`{ access_token: token }`; on a thrown error answer 500 with
`{ error: err.message }`. -/
def tokenHandler (cfg : Config) (resp : UpstreamResult) :
    List Call × HttpResponse :=
  let tr := getOAuthToken cfg resp
  match tr.2 with
  | .ok token => (tr.1, ⟨200, .obj [("access_token", token)]⟩)
  | .error e => (tr.1, ⟨500, .obj [("error", .str e.message)]⟩)

/-- The first gateway STK-push call in a trace, with its URL and
Authorization header. -/
def firstStk : List Call → Option (String × String × StkPayload)
  | [] => none
  | Call.stk u h p :: _ => some (u, h, p)
  | _ :: rest => firstStk rest

/-- The first C2B-register call in a trace, with its URL and Authorization
header. -/
def firstC2b : List Call → Option (String × String × C2BPayload)
  | [] => none
  | Call.c2b u h p :: _ => some (u, h, p)
  | _ :: rest => firstC2b rest

/-- Is a call a token exchange? -/
def isOauth : Call → Bool
  | Call.oauth _ _ => true
  | _ => false

/-- Number of token exchanges in a trace. -/
def oauthCount (calls : List Call) : Nat := calls.countP isOauth

/-! ### Lemmas: base64 decodes its own encoding -/

theorem b64Index_b64Char : ∀ n < 64, b64Index (b64Char n) = some n := by decide

theorem b64Char_ne_pad : ∀ n < 64, b64Char n ≠ '=' := by decide

theorem decodeChunk_one (a : Nat) (ha : a < 256) :
    decodeChunk (b64Char (a / 4)) (b64Char (a % 4 * 16)) '=' '=' = some [a] := by
  have h1 : a / 4 < 64 := by omega
  have h2 : a % 4 * 16 < 64 := by omega
  unfold decodeChunk
  rw [if_pos rfl, b64Index_b64Char _ h1, b64Index_b64Char _ h2]
  show (if '=' = '=' ∧ a % 4 * 16 % 16 = 0
    then some [a / 4 * 4 + a % 4 * 16 / 16] else none) = some [a]
  rw [if_pos ⟨rfl, by omega⟩]
  simp only [Option.some.injEq, List.cons.injEq, and_true]
  omega

theorem decodeChunk_two (a b : Nat) (ha : a < 256) (hb : b < 256) :
    decodeChunk (b64Char (a / 4)) (b64Char (a % 4 * 16 + b / 16))
      (b64Char (b % 16 * 4)) '=' = some [a, b] := by
  have h1 : a / 4 < 64 := by omega
  have h2 : a % 4 * 16 + b / 16 < 64 := by omega
  have h3 : b % 16 * 4 < 64 := by omega
  unfold decodeChunk
  rw [if_neg (b64Char_ne_pad _ h3), if_pos rfl,
    b64Index_b64Char _ h1, b64Index_b64Char _ h2, b64Index_b64Char _ h3]
  show (if b % 16 * 4 % 4 = 0
    then some [a / 4 * 4 + (a % 4 * 16 + b / 16) / 16,
               (a % 4 * 16 + b / 16) % 16 * 16 + b % 16 * 4 / 4]
    else none) = some [a, b]
  rw [if_pos (by omega)]
  simp only [Option.some.injEq, List.cons.injEq, and_true]
  omega

theorem decodeChunk_three (a b c : Nat) (ha : a < 256) (hb : b < 256)
    (hc : c < 256) :
    decodeChunk (b64Char (a / 4)) (b64Char (a % 4 * 16 + b / 16))
      (b64Char (b % 16 * 4 + c / 64)) (b64Char (c % 64)) = some [a, b, c] := by
  have h1 : a / 4 < 64 := by omega
  have h2 : a % 4 * 16 + b / 16 < 64 := by omega
  have h3 : b % 16 * 4 + c / 64 < 64 := by omega
  have h4 : c % 64 < 64 := by omega
  unfold decodeChunk
  rw [if_neg (b64Char_ne_pad _ h3), if_neg (b64Char_ne_pad _ h4),
    b64Index_b64Char _ h1, b64Index_b64Char _ h2, b64Index_b64Char _ h3,
    b64Index_b64Char _ h4]
  show some [a / 4 * 4 + (a % 4 * 16 + b / 16) / 16,
      (a % 4 * 16 + b / 16) % 16 * 16 + (b % 16 * 4 + c / 64) / 4,
      (b % 16 * 4 + c / 64) % 4 * 64 + c % 64] = some [a, b, c]
  simp only [Option.some.injEq, List.cons.injEq, and_true]
  omega

theorem base64Decode_base64Encode :
    ∀ (l : List Nat), (∀ b ∈ l, b < 256) →
      base64Decode (base64Encode l) = some l
  | [], _ => rfl
  | [a], h => by
    have ha : a < 256 := h a (by simp)
    show base64Decode [b64Char (a / 4), b64Char (a % 4 * 16), '=', '='] =
      some [a]
    simp only [base64Decode, true_or, if_true]
    simpa using decodeChunk_one a ha
  | [a, b], h => by
    have ha : a < 256 := h a (by simp)
    have hb : b < 256 := h b (by simp)
    show base64Decode [b64Char (a / 4), b64Char (a % 4 * 16 + b / 16),
      b64Char (b % 16 * 4), '='] = some [a, b]
    simp only [base64Decode, or_true, if_true]
    simpa using decodeChunk_two a b ha hb
  | a :: b :: c :: rest, h => by
    have ha : a < 256 := h a (by simp)
    have hb : b < 256 := h b (by simp)
    have hc : c < 256 := h c (by simp)
    have ih := base64Decode_base64Encode rest (fun x hx => h x (by simp [hx]))
    have h3 : b % 16 * 4 + c / 64 < 64 := by omega
    have h4 : c % 64 < 64 := by omega
    show base64Decode (b64Char (a / 4) :: b64Char (a % 4 * 16 + b / 16) ::
      b64Char (b % 16 * 4 + c / 64) :: b64Char (c % 64) ::
      base64Encode rest) = some (a :: b :: c :: rest)
    simp only [base64Decode]
    rw [if_neg (by
      simp only [not_or]
      exact ⟨b64Char_ne_pad _ h3, b64Char_ne_pad _ h4⟩)]
    rw [decodeChunk_three a b c ha hb hc, ih]
    rfl

/-! ### Lemmas: the timestamp string -/

theorem digitChar_mem_digits (n : Nat) :
    digitChar n ∈ ['0','1','2','3','4','5','6','7','8','9'] := by
  have h : n % 10 < 10 := Nat.mod_lt _ (by norm_num)
  unfold digitChar
  exact (by decide : ∀ m < 10,
    (['0','1','2','3','4','5','6','7','8','9'].getD m '0') ∈
      ['0','1','2','3','4','5','6','7','8','9']) _ h

theorem notSep_digitChar (n : Nat) : notSep (digitChar n) = true :=
  (by decide : ∀ c ∈ ['0','1','2','3','4','5','6','7','8','9'],
    notSep c = true) _ (digitChar_mem_digits n)

theorem mk_toList (l : List Char) : (String.mk l).toList = l := rfl

theorem toISOString_data (t : UTCTime) :
    (toISOString t).toList =
      [digitChar (t.year / 1000), digitChar (t.year / 100),
       digitChar (t.year / 10), digitChar t.year, '-',
       digitChar (t.month / 10), digitChar t.month, '-',
       digitChar (t.day / 10), digitChar t.day, 'T',
       digitChar (t.hour / 10), digitChar t.hour, ':',
       digitChar (t.minute / 10), digitChar t.minute, ':',
       digitChar (t.second / 10), digitChar t.second, '.',
       digitChar (t.ms / 100), digitChar (t.ms / 10), digitChar t.ms, 'Z'] :=
  rfl

theorem mkTimestamp_data (t : UTCTime) :
    (mkTimestamp t).toList =
      [digitChar (t.year / 1000), digitChar (t.year / 100),
       digitChar (t.year / 10), digitChar t.year,
       digitChar (t.month / 10), digitChar t.month,
       digitChar (t.day / 10), digitChar t.day,
       digitChar (t.hour / 10), digitChar t.hour,
       digitChar (t.minute / 10), digitChar t.minute,
       digitChar (t.second / 10), digitChar t.second] := by
  unfold mkTimestamp
  rw [mk_toList, toISOString_data]
  simp only [List.filter_cons, List.filter_nil, notSep_digitChar,
    (by decide : notSep '-' = false), (by decide : notSep ':' = false),
    (by decide : notSep 'T' = false), (by decide : notSep '.' = false),
    (by decide : notSep 'Z' = false), if_true, if_false, Bool.false_eq_true,
    ite_false, ite_true]
  simp only [List.take_succ_cons, List.take_zero]
theorem isDigit_digitChar (n : Nat) : (digitChar n).isDigit = true :=
  (by decide : ∀ c ∈ ['0','1','2','3','4','5','6','7','8','9'],
    c.isDigit = true) _ (digitChar_mem_digits n)

theorem ymdhmsString_data (t : UTCTime) :
    (ymdhmsString t).toList =
      [digitChar (t.year / 1000), digitChar (t.year / 100),
       digitChar (t.year / 10), digitChar t.year,
       digitChar (t.month / 10), digitChar t.month,
       digitChar (t.day / 10), digitChar t.day,
       digitChar (t.hour / 10), digitChar t.hour,
       digitChar (t.minute / 10), digitChar t.minute,
       digitChar (t.second / 10), digitChar t.second] := rfl

theorem mkTimestamp_eq_ymdhms (t : UTCTime) :
    mkTimestamp t = ymdhmsString t := by
  apply String.ext
  rw [show (mkTimestamp t).data = (mkTimestamp t).toList from rfl,
    show (ymdhmsString t).data = (ymdhmsString t).toList from rfl,
    mkTimestamp_data, ymdhmsString_data]

theorem mkTimestamp_length (t : UTCTime) : (mkTimestamp t).length = 14 := by
  rw [show (mkTimestamp t).length = (mkTimestamp t).toList.length from rfl,
    mkTimestamp_data]
  rfl

theorem mkTimestamp_digits (t : UTCTime) :
    ∀ c ∈ (mkTimestamp t).toList, c.isDigit = true := by
  rw [mkTimestamp_data]
  intro c hc
  simp only [List.mem_cons, List.not_mem_nil, or_false] at hc
  rcases hc with h|h|h|h|h|h|h|h|h|h|h|h|h|h <;> rw [h] <;>
    exact isDigit_digitChar _

/-! ### Lemmas: evaluating the handlers -/

/-- The STK payload the handler builds from the configuration, the instant
and the request body. -/
def builtStkPayload (cfg : Config) (now : UTCTime) (body : StkBody) :
    StkPayload :=
  { BusinessShortCode := cfg.SHORTCODE
    Password := base64String (cfg.SHORTCODE ++ cfg.PASSKEY ++ mkTimestamp now)
    Timestamp := mkTimestamp now
    TransactionType := "CustomerPayBillOnline"
    Amount := body.amount
    PartyA := body.phone
    PartyB := cfg.SHORTCODE
    PhoneNumber := body.phone
    CallBackURL := jsOrStr cfg.CALLBACK_URL "https://yourdomain.com/callback"
    AccountReference := jsDefault body.accountReference (.str "BOOK")
    TransactionDesc := jsDefault body.description (.str "Hotel booking") }

theorem stkpushHandler_ok_calls (cfg : Config) (now : UTCTime) (body : StkBody)
    (tb : JVal) (gw : UpstreamResult) :
    (stkpushHandler cfg now body (.ok tb) gw).1 =
      [Call.oauth (oauthUrl cfg) ("Basic " ++ basicAuth cfg),
       Call.stk (baseURL cfg ++ "/mpesa/stkpush/v1/processrequest")
         ("Bearer " ++ jTemplate (jGet tb "access_token"))
         (builtStkPayload cfg now body)] := by
  cases gw <;> rfl

theorem stkpushHandler_tokenErr (cfg : Config) (now : UTCTime) (body : StkBody)
    (e : HttpError) (gw : UpstreamResult) :
    stkpushHandler cfg now body (.err e) gw =
      ([Call.oauth (oauthUrl cfg) ("Basic " ++ basicAuth cfg)],
       ⟨500, .obj [("error", errVal e)]⟩) := by
  cases gw <;> rfl

theorem stkpushHandler_gwErr (cfg : Config) (now : UTCTime) (body : StkBody)
    (tb : JVal) (e : HttpError) :
    (stkpushHandler cfg now body (.ok tb) (.err e)).2 =
      ⟨500, .obj [("error", errVal e)]⟩ := rfl

theorem c2bHandler_ok_calls (cfg : Config) (body : C2BBody) (tb : JVal)
    (gw : UpstreamResult) :
    (c2bRegisterHandler cfg body (.ok tb) gw).1 =
      [Call.oauth (oauthUrl cfg) ("Basic " ++ basicAuth cfg),
       Call.c2b (baseURL cfg ++ "/mpesa/c2b/v1/registerurl")
         ("Bearer " ++ jTemplate (jGet tb "access_token"))
         { ShortCode := cfg.SHORTCODE
           ResponseType := "Completed"
           ConfirmationURL := body.confirmationURL
           ValidationURL := body.validationURL }] := by
  cases gw <;> rfl

theorem c2bHandler_tokenErr (cfg : Config) (body : C2BBody) (e : HttpError)
    (gw : UpstreamResult) :
    c2bRegisterHandler cfg body (.err e) gw =
      ([Call.oauth (oauthUrl cfg) ("Basic " ++ basicAuth cfg)],
       ⟨500, .obj [("error", errVal e)]⟩) := by
  cases gw <;> rfl


theorem strBytes_lt (s : String) : ∀ b ∈ strBytes s, b < 256 := by
  intro b hb
  simp only [strBytes, List.mem_map] at hb
  obtain ⟨u, _, rfl⟩ := hb
  exact u.toNat_lt

/-! ### The claims -/

/-- C1: for every shortcode, passkey and timestamp string, the `Password`
field sent by the STK-push handler equals base64 of the concatenation
`shortcode ++ passkey ++ timestamp`, and base64-decoding that password
reconstructs exactly the (UTF-8 bytes of the) concatenation. -/
theorem stk_password_base64_roundtrip :
    (∀ (cfg : Config) (now : UTCTime) (body : StkBody) (tb : JVal)
        (gw : UpstreamResult),
        (firstStk (stkpushHandler cfg now body (.ok tb) gw).1).map
            (fun c => c.2.2.Password) =
          some (base64String (cfg.SHORTCODE ++ cfg.PASSKEY ++ mkTimestamp now))) ∧
    ∀ (shortcode passkey timestamp : String),
      base64Decode (base64String (shortcode ++ passkey ++ timestamp)).toList =
        some (strBytes (shortcode ++ passkey ++ timestamp)) := by
  constructor
  · intro cfg now body tb gw
    rw [stkpushHandler_ok_calls]
    rfl
  · intro sc pk ts
    rw [show base64String (sc ++ pk ++ ts) =
      String.mk (base64Encode (strBytes (sc ++ pk ++ ts))) from rfl, mk_toList]
    exact base64Decode_base64Encode _ (strBytes_lt _)

/-- C2: at every valid instant, the `Timestamp` the handler computes (the
ISO-8601 rendering with `[-:TZ.]` stripped, truncated to 14 characters) is
exactly 14 numeric characters and equals the `YYYYMMDDHHMMSS` decomposition
of the instant. -/
theorem timestamp_is_14_digit_utc (t : UTCTime) (_hy : t.year ≤ 9999)
    (_hmo : 1 ≤ t.month ∧ t.month ≤ 12) (_hd : 1 ≤ t.day ∧ t.day ≤ 31)
    (_hh : t.hour ≤ 23) (_hmi : t.minute ≤ 59) (_hs : t.second ≤ 59)
    (_hms : t.ms ≤ 999) :
    (mkTimestamp t).length = 14 ∧
    (∀ c ∈ (mkTimestamp t).toList, c.isDigit = true) ∧
    mkTimestamp t = ymdhmsString t :=
  ⟨mkTimestamp_length t, mkTimestamp_digits t, mkTimestamp_eq_ymdhms t⟩

/-- Witness for C2 at the instant 2024-01-01T12:00:00.000Z, where the
timestamp evaluates to "20240101120000". -/
theorem timestamp_is_14_digit_utc_witness :
    mkTimestamp ⟨2024, 1, 1, 12, 0, 0, 0⟩ = "20240101120000" ∧
    ((mkTimestamp ⟨2024, 1, 1, 12, 0, 0, 0⟩).length = 14 ∧
     (∀ c ∈ (mkTimestamp ⟨2024, 1, 1, 12, 0, 0, 0⟩).toList, c.isDigit = true) ∧
     mkTimestamp ⟨2024, 1, 1, 12, 0, 0, 0⟩ =
       ymdhmsString ⟨2024, 1, 1, 12, 0, 0, 0⟩) :=
  ⟨by decide,
   timestamp_is_14_digit_utc ⟨2024, 1, 1, 12, 0, 0, 0⟩ (by decide) (by decide)
     (by decide) (by decide) (by decide) (by decide) (by decide)⟩

/-- C3: with `accountReference` and `description` omitted, the payload the
STK-push handler sends to the gateway has `AccountReference = "BOOK"`,
`TransactionDesc = "Hotel booking"`, `Amount = amount`,
`PartyA = PhoneNumber = phone`, `PartyB = BusinessShortCode = shortcode`,
and `TransactionType = "CustomerPayBillOnline"`. -/
theorem stkpush_payload_fields (cfg : Config) (now : UTCTime)
    (amount phone : JVal) (tb : JVal) (gw : UpstreamResult) :
    firstStk (stkpushHandler cfg now ⟨amount, phone, .undefined, .undefined⟩
        (.ok tb) gw).1 =
      some (baseURL cfg ++ "/mpesa/stkpush/v1/processrequest",
        "Bearer " ++ jTemplate (jGet tb "access_token"),
        builtStkPayload cfg now ⟨amount, phone, .undefined, .undefined⟩) ∧
    (builtStkPayload cfg now ⟨amount, phone, .undefined, .undefined⟩).AccountReference =
      .str "BOOK" ∧
    (builtStkPayload cfg now ⟨amount, phone, .undefined, .undefined⟩).TransactionDesc =
      .str "Hotel booking" ∧
    (builtStkPayload cfg now ⟨amount, phone, .undefined, .undefined⟩).Amount = amount ∧
    (builtStkPayload cfg now ⟨amount, phone, .undefined, .undefined⟩).PartyA = phone ∧
    (builtStkPayload cfg now ⟨amount, phone, .undefined, .undefined⟩).PhoneNumber =
      phone ∧
    (builtStkPayload cfg now ⟨amount, phone, .undefined, .undefined⟩).PartyB =
      cfg.SHORTCODE ∧
    (builtStkPayload cfg now
        ⟨amount, phone, .undefined, .undefined⟩).BusinessShortCode = cfg.SHORTCODE ∧
    (builtStkPayload cfg now ⟨amount, phone, .undefined, .undefined⟩).TransactionType =
      "CustomerPayBillOnline" :=
  ⟨by rw [stkpushHandler_ok_calls]; rfl, rfl, rfl, rfl, rfl, rfl, rfl, rfl, rfl⟩

/-- C4: for every JSON body, the callback handler answers HTTP 200 with
exactly `{ResultCode: 0, ResultDesc: "Accepted"}`; the response does not
depend on the payload and there is no error path. -/
theorem callback_always_accepted (body : JVal) :
    callbackHandler body =
      ⟨200, .obj [("ResultCode", .num 0), ("ResultDesc", .str "Accepted")]⟩ ∧
    ∀ other : JVal, callbackHandler body = callbackHandler other :=
  ⟨rfl, fun _ => rfl⟩

/-- C5: when the token exchange or the gateway call fails, the STK-push
handler answers HTTP 500 with an `error` field carrying the upstream's
structured body when one exists and the error message otherwise, and no
retry happens (one token call, at most one gateway call). -/
theorem stkpush_upstream_failure_500 (cfg : Config) (now : UTCTime)
    (body : StkBody) (e : HttpError) (tb : JVal) (gw : UpstreamResult) :
    (stkpushHandler cfg now body (.err e) gw).2 =
      ⟨500, .obj [("error", errVal e)]⟩ ∧
    (stkpushHandler cfg now body (.ok tb) (.err e)).2 =
      ⟨500, .obj [("error", errVal e)]⟩ ∧
    (∀ fields, errVal ⟨.obj fields, e.message⟩ = .obj fields) ∧
    errVal ⟨.undefined, e.message⟩ = .str e.message ∧
    oauthCount (stkpushHandler cfg now body (.err e) gw).1 = 1 ∧
    (stkpushHandler cfg now body (.err e) gw).1.length = 1 ∧
    oauthCount (stkpushHandler cfg now body (.ok tb) (.err e)).1 = 1 ∧
    (stkpushHandler cfg now body (.ok tb) (.err e)).1.length = 2 := by
  refine ⟨?_, rfl, fun fields => rfl, rfl, ?_, ?_, ?_, ?_⟩
  · rw [stkpushHandler_tokenErr]
  · rw [stkpushHandler_tokenErr]; rfl
  · rw [stkpushHandler_tokenErr]; rfl
  · rw [stkpushHandler_ok_calls]; rfl
  · rw [stkpushHandler_ok_calls]; rfl

/-- C6: every invocation of the STK-push and C2B-register handlers performs
exactly one token exchange, as the first outbound call (hence before any
gateway call); the handlers are pure functions of the configuration and the
upstream oracles, so no process-wide state is mutated. -/
theorem fresh_token_per_request (cfg : Config) (now : UTCTime)
    (body : StkBody) (cbody : C2BBody) (tokenResp gw : UpstreamResult) :
    oauthCount (stkpushHandler cfg now body tokenResp gw).1 = 1 ∧
    oauthCount (c2bRegisterHandler cfg cbody tokenResp gw).1 = 1 ∧
    (stkpushHandler cfg now body tokenResp gw).1.head? =
      some (Call.oauth (oauthUrl cfg) ("Basic " ++ basicAuth cfg)) ∧
    (c2bRegisterHandler cfg cbody tokenResp gw).1.head? =
      some (Call.oauth (oauthUrl cfg) ("Basic " ++ basicAuth cfg)) := by
  cases tokenResp <;> cases gw <;> exact ⟨rfl, rfl, rfl, rfl⟩

/-- C7: `getOAuthToken` performs a GET to
`{baseURL}/oauth/v1/generate?grant_type=client_credentials` with
Authorization `"Basic " ++ base64(consumerKey ++ ":" ++ consumerSecret)`,
and on a 2xx response returns the `access_token` field of the body
verbatim. -/
theorem getOAuthToken_contract (cfg : Config) (data t : JVal)
    (rest : List (String × JVal)) :
    getOAuthToken cfg (.ok data) =
      ([Call.oauth
          (baseURL cfg ++ "/oauth/v1/generate?grant_type=client_credentials")
          ("Basic " ++
            base64String (cfg.CONSUMER_KEY ++ ":" ++ cfg.CONSUMER_SECRET))],
       .ok (jGet data "access_token")) ∧
    jGet (.obj (("access_token", t) :: rest)) "access_token" = t :=
  ⟨rfl, by simp [jGet, List.lookup]⟩

/-- C8: the C2B-register handler performs no local validation: for every
body, including one with `confirmationURL` missing (`undefined`), it POSTs
`{ShortCode, ResponseType: "Completed", ConfirmationURL, ValidationURL}` to
`{baseURL}/mpesa/c2b/v1/registerurl`, passing the missing field through as
`undefined`. -/
theorem c2b_register_no_validation (cfg : Config) (body : C2BBody)
    (tb : JVal) (gw : UpstreamResult) :
    firstC2b (c2bRegisterHandler cfg body (.ok tb) gw).1 =
      some (baseURL cfg ++ "/mpesa/c2b/v1/registerurl",
        "Bearer " ++ jTemplate (jGet tb "access_token"),
        { ShortCode := cfg.SHORTCODE
          ResponseType := "Completed"
          ConfirmationURL := body.confirmationURL
          ValidationURL := body.validationURL }) ∧
    firstC2b (c2bRegisterHandler cfg ⟨.undefined, body.validationURL⟩
        (.ok tb) gw).1 =
      some (baseURL cfg ++ "/mpesa/c2b/v1/registerurl",
        "Bearer " ++ jTemplate (jGet tb "access_token"),
        { ShortCode := cfg.SHORTCODE
          ResponseType := "Completed"
          ConfirmationURL := .undefined
          ValidationURL := body.validationURL }) := by
  constructor <;> rw [c2bHandler_ok_calls] <;> rfl

/-- C9: the `/token` route answers HTTP 500 with an `{error}` body (the
error message) when the token exchange fails, and HTTP 200 with
`{access_token}` on success. -/
theorem token_route_responses (cfg : Config) (e : HttpError) (t : JVal) :
    (tokenHandler cfg (.err e)).2 = ⟨500, .obj [("error", .str e.message)]⟩ ∧
    (tokenHandler cfg (.ok t)).2 =
      ⟨200, .obj [("access_token", jGet t "access_token")]⟩ :=
  ⟨rfl, rfl⟩

/-- C10: when the token endpoint answers 2xx with a body lacking
`access_token`, `getOAuthToken` returns `undefined` without error, `/token`
answers HTTP 200 with `{access_token: undefined}`, and the STK-push handler
proceeds to call the gateway with header `"Bearer undefined"`. -/
theorem missing_access_token_undefined (cfg : Config) (now : UTCTime)
    (body : StkBody) (fields : List (String × JVal)) (gw : UpstreamResult)
    (h : fields.lookup "access_token" = none) :
    (getOAuthToken cfg (.ok (.obj fields))).2 = .ok .undefined ∧
    (tokenHandler cfg (.ok (.obj fields))).2 =
      ⟨200, .obj [("access_token", .undefined)]⟩ ∧
    (firstStk (stkpushHandler cfg now body (.ok (.obj fields)) gw).1).map
        (fun c => c.2.1) = some "Bearer undefined" := by
  have hg : jGet (.obj fields) "access_token" = .undefined := by
    simp [jGet, h]
  refine ⟨?_, ?_, ?_⟩
  · show Except.ok (jGet (.obj fields) "access_token") = .ok .undefined
    rw [hg]
  · show HttpResponse.mk 200
      (.obj [("access_token", jGet (.obj fields) "access_token")]) = _
    rw [hg]
  · rw [stkpushHandler_ok_calls]
    show some ("Bearer " ++ jTemplate (jGet (.obj fields) "access_token")) = _
    rw [hg]
    rfl

/-- Witness for C10 with the empty response object `{}` and concrete
configuration, instant, request body and gateway answer. -/
theorem missing_access_token_undefined_witness :
    (([] : List (String × JVal)).lookup "access_token" = none) ∧
    ((getOAuthToken ⟨"ck", "cs", "174379", "test", none, none⟩
        (.ok (.obj []))).2 = .ok .undefined ∧
     (tokenHandler ⟨"ck", "cs", "174379", "test", none, none⟩
        (.ok (.obj []))).2 = ⟨200, .obj [("access_token", .undefined)]⟩ ∧
     (firstStk (stkpushHandler ⟨"ck", "cs", "174379", "test", none, none⟩
          ⟨2024, 1, 1, 12, 0, 0, 0⟩
          ⟨.num 100, .str "254712345678", .undefined, .undefined⟩
          (.ok (.obj [])) (.ok .undefined)).1).map (fun c => c.2.1) =
       some "Bearer undefined") :=
  ⟨rfl, missing_access_token_undefined
    ⟨"ck", "cs", "174379", "test", none, none⟩ ⟨2024, 1, 1, 12, 0, 0, 0⟩
    ⟨.num 100, .str "254712345678", .undefined, .undefined⟩ [] (.ok .undefined) rfl⟩

end Server
